import Mathlib

/-!
Verification development for the PDF-Extractor extraction-job orchestration
subsystem (backend/src/tasks.py, factory.py, extractors/, models/).

The Python code is shallowly embedded: dynamic Python values are modelled by
the inductive type PyVal, Python exceptions by PyExc carried in Except, the
Celery task process_document_with_extractor by the function runJob over an
environment Env describing every external interaction (Redis circuit-breaker
counter, database lookups, file system, extractor behaviour), together with a
Trace of the externally visible effects of one invocation.
-/

namespace PDFX

/-- A Python dictionary key as used by the orchestration code: either a string
key (content-kind tags, record fields) or an integer key (page numbers). -/
inductive PyKey where
  | ks (s : String)
  | ki (n : Int)
deriving DecidableEq, Repr

/-- A dynamic Python value, covering the shapes that flow through the job
executor: None, booleans, integers, strings and dictionaries (association
lists, keys unique in all values the code builds). -/
inductive PyVal where
  | vNone
  | vBool (b : Bool)
  | vInt (n : Int)
  | vStr (s : String)
  | vDict (entries : List (PyKey × PyVal))
deriving Repr

/-- Python truthiness of a value, as used by `if not pages`, `body or ...`,
`if page_contents`. -/
def PyVal.truthy : PyVal → Bool
  | .vNone => false
  | .vBool b => b
  | .vInt n => n != 0
  | .vStr s => !s.isEmpty
  | .vDict l => !l.isEmpty

/-- Lookup in a Python dictionary modelled as an association list
(`d.get(k)` without default returns None, modelled as Option). -/
def dictGet : List (PyKey × PyVal) → PyKey → Option PyVal
  | [], _ => Option.none
  | (k, v) :: rest, k2 => if k = k2 then some v else dictGet rest k2

/-- Python `a or b` on values: `a` when truthy, else `b`. -/
def pyOr (a b : PyVal) : PyVal := if a.truthy then a else b

/-- The Python exception classes that reach the job executor's handlers. -/
inductive PyExc where
  | databaseError
  | operationalError
  | pendingRollbackError
  | psycopg2DatabaseError
  | connectionError
  | fileNotFoundError
  | osError
  | runtimeError
  | valueError
  | typeError
  | keyError
  | attributeError
deriving DecidableEq, Repr

/-- Embeds tasks.is_infrastructure_error: an isinstance check against the
tuple (DatabaseError, OperationalError, PendingRollbackError,
psycopg2 DatabaseError, ConnectionError, FileNotFoundError, OSError). -/
def is_infrastructure_error (e : PyExc) : Bool :=
  match e with
  | .databaseError => true
  | .operationalError => true
  | .pendingRollbackError => true
  | .psycopg2DatabaseError => true
  | .connectionError => true
  | .fileNotFoundError => true
  | .osError => true
  | _ => false

/-- Python whitespace as recognised by str.strip on ASCII input: space, tab,
newline, carriage return, vertical tab, form feed. -/
def pyIsSpace (c : Char) : Bool :=
  c = ' ' || c = '\t' || c = '\n' || c = '\r' || c = '\x0b' || c = '\x0c'

/-- Python str.strip over the character list: drop whitespace from both
ends. -/
def pyStripList (l : List Char) : List Char :=
  ((l.dropWhile pyIsSpace).reverse.dropWhile pyIsSpace).reverse

/-- Python str.strip. -/
def pyStrip (s : String) : String := ⟨pyStripList s.data⟩

/-- Evaluates, for one page body, the expression
`((body or default).get("content", default)).get("COMBINED") or .get("TEXT")
or .get("LATEX") or empty, then .strip()` from tasks._has_meaningful_content,
with Python exception behaviour: attribute errors on non-dict receivers and
on stripping a non-string. Returns the stripped text. -/
def pageText (body : PyVal) : Except PyExc String :=
  match pyOr body (.vDict []) with
  | .vDict bl =>
    match (dictGet bl (.ks "content")).getD (.vDict []) with
    | .vDict cl =>
      let got := fun k => (dictGet cl (.ks k)).getD .vNone
      match pyOr (got "COMBINED") (pyOr (got "TEXT") (pyOr (got "LATEX") (.vStr ""))) with
      | .vStr s => .ok (pyStrip s)
      | _ => .error .attributeError
    | _ => .error .attributeError
  | _ => .error .attributeError

/-- The `for _p, body in pages.items()` loop of tasks._has_meaningful_content:
returns true at the first page whose stripped text is non-empty, false when
the pages are exhausted; an exception aborts the whole scan. -/
def scanPages : List (PyKey × PyVal) → Except PyExc Bool
  | [] => .ok false
  | (_, body) :: rest =>
    match pageText body with
    | .error e => .error e
    | .ok t => if t ≠ "" then .ok true else scanPages rest

/-- The body of tasks._has_meaningful_content before its try/except wrapper:
`if not pages: return False`, then the page scan; `.items()` on a truthy
non-dict raises. -/
def hasMeaningfulContentE (pages : PyVal) : Except PyExc Bool :=
  if !pages.truthy then .ok false
  else
    match pages with
    | .vDict l => scanPages l
    | _ => .error .attributeError

/-- Embeds tasks._has_meaningful_content including its `try ... except:
return False` wrapper. -/
def has_meaningful_content (pages : PyVal) : Bool :=
  match hasMeaningfulContentE pages with
  | .ok b => b
  | .error _ => false

/-- Embeds models.enums.ExtractionStatus. -/
inductive ExtractionStatus where
  | NOT_STARTED
  | PROCESSING
  | SUCCESS
  | FAILURE
deriving DecidableEq, Repr

/-- A per-extractor retry configuration entry, as consumed by
process_document_with_extractor: the re-enqueue delay in seconds and the
maximum number of Celery retries. -/
structure RetryConfig where
  countdown : Nat
  max_retries : Nat
deriving DecidableEq, Repr

/-- Embeds tasks.get_retry_config: EXTRACTOR_RETRY_CONFIG.get with the
process-wide default as fallback. The two tables live in src.constants,
which is not part of the sources; they are abstract parameters here. -/
def get_retry_config (table : List (String × RetryConfig)) (dflt : RetryConfig)
    (extractor_type : String) : RetryConfig :=
  (table.lookup extractor_type).getD dflt

/-- Embeds tasks.check_circuit_breaker: the Redis counter for the extractor's
circuit key is absent (falsy reply) or compared against
CIRCUIT_BREAKER_THRESHOLD (a constant from the absent src.constants module,
abstract here). -/
def check_circuit_breaker (failure_count : Option Nat) (threshold : Nat) : Bool :=
  match failure_count with
  | Option.none => false
  | some c => decide (threshold ≤ c)

/-- Embeds the cost_per_page table of tasks.calculate_extraction_cost, with
the Python float literals read as exact decimal rationals. Note the key
"PyPDF" (the registry identifier is "PyPDF2"). -/
def cost_per_page : List (String × ℚ) :=
  [("PyPDF", 0), ("PyMuPDF", 0), ("PDFPlumber", 0), ("Camelot", 0),
   ("Textract", 15 / 10000), ("Tesseract", 0),
   ("gpt-4o-mini", 5 / 1000), ("gpt-4o", 10 / 1000), ("gpt-4-turbo", 15 / 1000)]

/-- Python round(x, 4): rounding to four decimal places. Every value the
code rounds is an exact multiple of 1/10000, so the tie-breaking convention
is irrelevant. -/
def round4 (q : ℚ) : ℚ := (⌊q * 10000 + 1 / 2⌋ : ℚ) / 10000

/-- Embeds tasks.calculate_extraction_cost: the per-page rate for the
extractor (default 0.001 when the identifier is not listed, bound to the
local base_cost in the source) times the page count, rounded to 4 decimal
places. -/
def calculate_extraction_cost (extractor_type : String) (page_count : Nat) : ℚ :=
  round4 (((cost_per_page.lookup extractor_type).getD (1 / 1000)) * page_count)

/-- A constructed reader instance as produced by factory.READER_MAP: each
constructor of this type stands for one extractor class, with the OpenAI
vision class carrying the model name bound at construction time. -/
inductive ReaderCtor where
  | pymupdf
  | pdfplumber
  | pypdf2
  | tesseract
  | textract
  | markitdown
  | llamaparse
  | mathpix
  | openai_vision (model : String)
deriving DecidableEq, Repr

/-- Embeds factory.READER_MAP: enum value strings mapped to reader
constructors. -/
def READER_MAP : List (String × ReaderCtor) :=
  [("PyMuPDF", .pymupdf), ("PDFPlumber", .pdfplumber), ("PyPDF2", .pypdf2),
   ("Tesseract", .tesseract), ("Textract", .textract),
   ("MarkItDown", .markitdown), ("LlamaParse", .llamaparse),
   ("Mathpix", .mathpix),
   ("gpt-4o-mini", .openai_vision "gpt-4o-mini"),
   ("gpt-4o", .openai_vision "gpt-4o"),
   ("gpt-4-turbo", .openai_vision "gpt-4-turbo")]

/-- Embeds factory.get_reader: raise ValueError when the identifier is not a
key of READER_MAP, otherwise construct and return the reader instance. The
function reads no job state: it is a pure lookup over the identifier. -/
def get_reader (extractor_type : String) : Except PyExc ReaderCtor :=
  match READER_MAP.lookup extractor_type with
  | Option.none => .error .valueError
  | some r => .ok r

/-- The result of one call to reader.read: either the value it returned
(a dict means synchronous results; anything else is treated by the executor
as an asynchronous job handle) or the exception it raised. -/
inductive ReadOut where
  | ret (v : PyVal)
  | raises (e : PyExc)
deriving Repr

/-- The externally observable behaviour of the reader instance during one
executor invocation: its webhook capability flag, the outcome of read, the
successive get_status replies, and the outcome of get_result. -/
structure ExtractorBehavior where
  supports_webhook : Bool
  readOut : ReadOut
  pollStatuses : List String
  getResult : Except PyExc PyVal
deriving Repr

/-- Python str.startswith over the character lists. -/
def pyStartsWith (s pre : String) : Bool := pre.data.isPrefixOf s.data

/-- The environment of one process_document_with_extractor invocation: every
value the task reads from the outside world. Database reads and commits are
modelled as reliable; the retry tables and the breaker threshold come from
the src.constants module, which is not among the sources, so they are
carried here as data. -/
structure Env where
  breakerCount : Option Nat
  breakerThreshold : Nat
  documentFound : Bool
  file_path : String
  localFileExists : Bool
  s3Download : Except PyExc Unit
  readerE : Except PyExc ExtractorBehavior
  extractorRetryTable : List (String × RetryConfig)
  defaultRetryConfig : RetryConfig
  extractor_type : String
deriving Repr

/-- A row of the document_page_content table as the executor inserts it:
only uuid (omitted here), job uuid (omitted), page number and the content
sub-map are set; the metadata column keeps its default. -/
structure StoredPage where
  page_number : PyKey
  content : PyVal
  metadata_ : PyVal
deriving Repr

/-- The externally visible effects of one executor invocation: committed
job-status updates in order, whether reader.read ran, how many get_status
calls were made, circuit-breaker updates, committed page rows, the cost
committed with the terminal status, and the file-coordinator
notifications. -/
structure Trace where
  statusUpdates : List ExtractionStatus
  readCalled : Bool
  pollCalls : Nat
  breakerFailureRecorded : Bool
  breakerReset : Bool
  persistedPages : List StoredPage
  costRecorded : Option ℚ
  markedComplete : Bool
  markedFailed : Bool
deriving Repr

/-- The trace at task entry: nothing has happened yet. -/
def Trace.empty : Trace :=
  ⟨[], false, 0, false, false, [], Option.none, false, false⟩

/-- How one invocation ends: normal return, an infrastructure error
re-raised with no retry scheduled, self.retry re-enqueueing the job after
countdown seconds, or self.retry finding max_retries exhausted and
re-raising the original error with no retry scheduled. -/
inductive Outcome where
  | success
  | infraRaise (e : PyExc)
  | retryScheduled (e : PyExc) (countdown : Nat)
  | retriesExhausted (e : PyExc)
deriving Repr

/-- The `except Exception as e` block of process_document_with_extractor:
roll back the uncommitted page inserts, commit the FAILURE status with zero
cost, record a circuit-breaker failure, notify the file coordinator, then
either re-raise (infrastructure errors) or call self.retry with the
per-extractor config; Celery's retry re-raises the original error once
retries (the prior attempt count) has reached max_retries. -/
def handleFailure (env : Env) (retries : Nat) (tr : Trace) (e : PyExc) :
    Trace × Outcome :=
  let tr2 : Trace :=
    { tr with
      statusUpdates := tr.statusUpdates ++ [ExtractionStatus.FAILURE]
      costRecorded := some 0
      breakerFailureRecorded := true
      markedFailed := true }
  if is_infrastructure_error e then
    (tr2, Outcome.infraRaise e)
  else
    let cfg := get_retry_config env.extractorRetryTable env.defaultRetryConfig
      env.extractor_type
    (tr2,
     if retries < cfg.max_retries then
       Outcome.retryScheduled e cfg.countdown
     else Outcome.retriesExhausted e)

/-- The polling loop: consume get_status replies until one is terminal,
returning it and the number of calls; Option.none when the replies never
become terminal (the Python loop then never ends). -/
def pollLoop : List String → Option (String × Nat)
  | [] => Option.none
  | s :: rest =>
    if s = "succeeded" ∨ s = "failed" then some (s, 1)
    else
      match pollLoop rest with
      | Option.none => Option.none
      | some (t, n) => some (t, n + 1)

/-- The page-persistence loop: for every page build a row from
content["content"] with the metadata column left at its default empty dict;
subscripting a non-dict body raises TypeError and a body without a
"content" key raises KeyError, aborting the loop (nothing is committed). -/
def persistPages : List (PyKey × PyVal) → Except PyExc (List StoredPage)
  | [] => .ok []
  | (k, body) :: rest =>
    match body with
    | .vDict bl =>
      match dictGet bl (.ks "content") with
      | some c =>
        (persistPages rest).map (fun r => ⟨k, c, .vDict []⟩ :: r)
      | Option.none => .error .keyError
    | _ => .error .typeError

/-- Steps 4 to 6 of the task body once page_contents is known: validate with
the content check, insert page rows, compute the cost from the page count,
and commit the SUCCESS status together with the rows, then reset the
circuit breaker and mark the task complete. -/
def finishJob (env : Env) (retries : Nat) (tr : Trace) (pc : PyVal) :
    Trace × Outcome :=
  if !has_meaningful_content pc then
    handleFailure env retries tr .runtimeError
  else
    match pc with
    | .vDict entries =>
      match persistPages entries with
      | .error e => handleFailure env retries tr e
      | .ok stored =>
        ({ tr with
           statusUpdates := tr.statusUpdates ++ [ExtractionStatus.SUCCESS]
           persistedPages := stored
           costRecorded := some (calculate_extraction_cost env.extractor_type entries.length)
           breakerReset := true
           markedComplete := true },
         Outcome.success)
    | _ =>
      handleFailure env retries tr .attributeError

/-- Embeds the Celery task process_document_with_extractor as a function of
its environment and of the number of retries already consumed
(self.request.retries). Option.none models the one non-terminating path,
the endless polling loop. -/
def runJob (env : Env) (retries : Nat) : Option (Trace × Outcome) :=
  if check_circuit_breaker env.breakerCount env.breakerThreshold then
    some (handleFailure env retries Trace.empty .runtimeError)
  else
    let tr1 : Trace := { Trace.empty with statusUpdates := [ExtractionStatus.PROCESSING] }
    if !env.documentFound then
      some (handleFailure env retries tr1 .runtimeError)
    else
      match
        (if pyStartsWith env.file_path "projects/" then env.s3Download
         else if env.localFileExists then Except.ok ()
         else Except.error PyExc.runtimeError : Except PyExc Unit) with
      | .error e => some (handleFailure env retries tr1 e)
      | .ok _ =>
        match env.readerE with
        | .error e => some (handleFailure env retries tr1 e)
        | .ok reader =>
          match reader.readOut with
          | .raises e =>
            some (handleFailure env retries { tr1 with readCalled := true } e)
          | .ret rv =>
            let tr2 : Trace := { tr1 with readCalled := true }
            if reader.supports_webhook then
              some (finishJob env retries tr2 .vNone)
            else
              match rv with
              | .vDict l => some (finishJob env retries tr2 (.vDict l))
              | _ =>
                match pollLoop reader.pollStatuses with
                | Option.none => Option.none
                | some (st, n) =>
                  let tr3 : Trace := { tr2 with pollCalls := n }
                  if st = "failed" then
                    some (handleFailure env retries tr3 .runtimeError)
                  else
                    match reader.getResult with
                    | .error e => some (handleFailure env retries tr3 e)
                    | .ok pc => some (finishJob env retries tr3 pc)

/-- Outcome of opening the PDF inside PyPDF2Extractor.read: either the list
of per-page texts PyPDF2 extracted (None when extract_text returned None),
or the exception message when PdfReader or extraction raised. -/
inductive PdfReadOutcome where
  | pages (texts : List (Option String))
  | raises (msg : String)
deriving Repr

/-- The page_contents dictionary PyPDF2Extractor.read builds for pages
numbered from i+1 on: content holds the TEXT kind, metadata the extractor
name and page number. -/
def pypdf2_pages : List (Option String) → Nat → List (PyKey × PyVal)
  | [], _ => []
  | t :: rest, i =>
    (PyKey.ki (Int.ofNat (i + 1)), PyVal.vDict
      [(.ks "content", .vDict [(.ks "TEXT", .vStr (t.getD ""))]),
       (.ks "metadata", .vDict
         [(.ks "extractor", .vStr "PyPDF2"),
          (.ks "page_number", .vInt (Int.ofNat (i + 1)))])]) ::
    pypdf2_pages rest (i + 1)

/-- The value PyPDF2Extractor.read stores into self._last_result: the built
page map on success, and on an exception the fallback single page with empty
TEXT and an error metadata entry. -/
def pypdf2_page_contents : PdfReadOutcome → PyVal
  | .pages texts => .vDict (pypdf2_pages texts 0)
  | .raises msg => .vDict
      [(.ki 1, .vDict
        [(.ks "content", .vDict [(.ks "TEXT", .vStr "")]),
         (.ks "metadata", .vDict [(.ks "error", .vStr msg)])])]

/-- Embeds PyPDF2Extractor.read: the pair of the value the method returns
and the new value of self._last_result. The method's final statement is
`return True`, so the returned value is the boolean True, not the page
map. -/
def pypdf2_read (o : PdfReadOutcome) : PyVal × PyVal :=
  (PyVal.vBool true, pypdf2_page_contents o)

/-- The text value of one content-kind tag of a page's content dict: the
string stored under the tag, or the empty string when the tag is absent. -/
def getStrKind (cl : List (PyKey × PyVal)) (k : String) : String :=
  match dictGet cl (.ks k) with
  | some (.vStr s) => s
  | _ => ""

/-- First non-empty string in a list, or the empty string: the value the
Python or-chain selects from a list of string candidates. -/
def firstNonemptyStr : List String → String
  | [] => ""
  | s :: rest => if s.isEmpty then firstNonemptyStr rest else s

/-- The text the validator's or-chain selects from a well-formed page body:
the first non-empty string among the COMBINED, TEXT and LATEX tags of the
content dict, stripped. TABLE and MARKDOWN never enter the selection. -/
def code_selected_text (body : PyVal) : String :=
  match body with
  | .vDict bl =>
    match dictGet bl (.ks "content") with
    | some (.vDict cl) =>
      pyStrip (firstNonemptyStr
        [getStrKind cl "COMBINED", getStrKind cl "TEXT", getStrKind cl "LATEX"])
    | _ => ""
  | _ => ""

/-- Well-formedness of a page body: a dict whose content entry, when
present, is a dict of string values. -/
def WFBody : PyVal → Bool
  | .vDict bl =>
    match dictGet bl (.ks "content") with
    | some (.vDict cl) =>
      cl.all fun kv => match kv.2 with | .vStr _ => true | _ => false
    | some _ => false
    | Option.none => true
  | _ => false

/-- Well-formedness of a page map: a dict of well-formed page bodies. -/
def WFPages : PyVal → Bool
  | .vDict l => l.all fun pr => WFBody pr.2
  | _ => false

/-- Validator behaviour restated structurally: some page's selected text
(first non-empty among COMBINED, TEXT, LATEX, then stripped) is
non-empty. -/
def amended_meaningful (pages : PyVal) : Bool :=
  match pages with
  | .vDict l => l.any fun pr => !(code_selected_text pr.2).isEmpty
  | _ => false

/-- The five content-kind tags that the spec names as recognized. -/
def specRecognizedKinds : List String :=
  ["TEXT", "COMBINED", "TABLE", "LATEX", "MARKDOWN"]

/-- Follows the spec's words for the validator: false iff the page map is
empty or every page's every content value is blank across all recognized
kind tags; equivalently, true iff some page stores a non-blank string under
some recognized kind tag. Stated for comparison with the source-derived
has_meaningful_content. -/
def spec_isMeaningful (pages : PyVal) : Bool :=
  match pages with
  | .vDict l => l.any fun pr =>
      match pr.2 with
      | .vDict bl =>
        match dictGet bl (.ks "content") with
        | some (.vDict cl) => specRecognizedKinds.any fun k =>
            match dictGet cl (.ks k) with
            | some (.vStr s) => !(pyStrip s).isEmpty
            | _ => false
        | _ => false
      | _ => false
  | _ => false

/-- Follows the totality claim's words: every malformed page is treated as
not meaningful on its own, while the remaining pages still count. Stated
for comparison with the source-derived has_meaningful_content. -/
def perPage_isMeaningful (pages : PyVal) : Bool :=
  match pages with
  | .vDict l => l.any fun pr =>
      match pageText pr.2 with
      | .ok t => !t.isEmpty
      | .error _ => false
  | _ => false

/-- A page map whose only page stores non-blank text under the TABLE kind
only, as the PDFPlumber backend produces for a table-only page. -/
def tableOnlyPages : PyVal :=
  .vDict [(.ki 1, .vDict [(.ks "content", .vDict [(.ks "TABLE", .vStr "a | b")])])]

/-- A page map whose first page body is a bare integer (malformed) and whose
second page is well-formed and meaningful. -/
def poisonedPages : PyVal :=
  .vDict [(.ki 1, .vInt 42),
          (.ki 2, .vDict [(.ks "content", .vDict [(.ks "TEXT", .vStr "hello")])])]

/-- The status sequences the claim admits: prefixes of NOT_STARTED,
PROCESSING, SUCCESS and of NOT_STARTED, PROCESSING, FAILURE. -/
def claimStatusSeqs : List (List ExtractionStatus) :=
  [[], [.NOT_STARTED], [.NOT_STARTED, .PROCESSING],
   [.NOT_STARTED, .PROCESSING, .SUCCESS],
   [.NOT_STARTED, .PROCESSING, .FAILURE]]

/-- A one-page meaningful result as a synchronous extractor returns it. -/
def goodPages : PyVal :=
  .vDict [(.ki 1, .vDict [(.ks "content", .vDict [(.ks "TEXT", .vStr "hello")])])]

/-- A one-page meaningful result that also carries per-page metadata. -/
def pagesWithMeta : PyVal :=
  .vDict [(.ki 1, .vDict
    [(.ks "content", .vDict [(.ks "TEXT", .vStr "Hi")]),
     (.ks "metadata", .vDict [(.ks "extractor", .vStr "PyPDF2")])])]

/-- A synchronous extractor returning goodPages from read. -/
def behSync : ExtractorBehavior :=
  ⟨false, .ret goodPages, [], .error .runtimeError⟩

/-- A webhook-capable extractor: read returns a remote handle. -/
def behHook : ExtractorBehavior :=
  ⟨true, .ret (.vStr "remote-1"), [], .error .runtimeError⟩

/-- An extractor whose read raises a provider error. -/
def behRaise : ExtractorBehavior :=
  ⟨false, .raises .runtimeError, [], .error .runtimeError⟩

/-- The PyPDF2 reader as the executor observes it: read returns True, the
status is immediately succeeded, and get_result hands back _last_result. -/
def behPyPDF2 : ExtractorBehavior :=
  ⟨false, .ret (.vBool true), ["succeeded"],
   .ok (pypdf2_page_contents (.pages [some "Hello"]))⟩

/-- A synchronous extractor returning pagesWithMeta from read. -/
def behMeta : ExtractorBehavior :=
  ⟨false, .ret pagesWithMeta, [], .error .runtimeError⟩

/-- A baseline healthy environment: breaker closed, document present, local
file present, Textract retry entry of 30 seconds and 3 attempts, default of
60 seconds and 2 attempts. -/
def envBase : Env :=
  { breakerCount := Option.none
    breakerThreshold := 5
    documentFound := true
    file_path := "/tmp/a.pdf"
    localFileExists := true
    s3Download := .ok ()
    readerE := .ok behSync
    extractorRetryTable := [("Textract", ⟨30, 3⟩)]
    defaultRetryConfig := ⟨60, 2⟩
    extractor_type := "Textract" }

/-- envBase with the circuit breaker at its threshold (open). -/
def envC1 : Env := { envBase with breakerCount := some 5 }

/-- envBase with a webhook-capable extractor. -/
def envC2 : Env := { envBase with readerE := .ok behHook }

/-- envBase with the circuit breaker beyond its threshold (open). -/
def envC3 : Env := { envBase with breakerCount := some 7 }

/-- envBase running the PyPDF2 reader. -/
def envC5 : Env := { envBase with readerE := .ok behPyPDF2, extractor_type := "PyPDF2" }

/-- envBase with an extractor whose read raises a provider error. -/
def envC6 : Env := { envBase with readerE := .ok behRaise }

/-- envBase with an extractor producing per-page metadata. -/
def envC10 : Env := { envBase with readerE := .ok behMeta }

/-- The page row the executor stores for goodPages. -/
def spBase : StoredPage :=
  ⟨.ki 1, .vDict [(.ks "TEXT", .vStr "hello")], .vDict []⟩

/-- The trace of the successful envBase invocation. -/
def trBase : Trace :=
  ⟨[.PROCESSING, .SUCCESS], true, 0, false, true, [spBase],
   some (calculate_extraction_cost "Textract" 1), true, false⟩

/-- The trace of the failed envC6 invocation. -/
def trC6 : Trace :=
  ⟨[.PROCESSING, .FAILURE], true, 0, true, false, [], some 0, false, true⟩

/-- The page row the executor stores for pagesWithMeta. -/
def spC10 : StoredPage :=
  ⟨.ki 1, .vDict [(.ks "TEXT", .vStr "Hi")], .vDict []⟩

/-- The trace of the successful envC10 invocation. -/
def trC10 : Trace :=
  ⟨[.PROCESSING, .SUCCESS], true, 0, false, true, [spC10],
   some (calculate_extraction_cost "Textract" 1), true, false⟩

example :
    has_meaningful_content
      (.vDict [(.ki 1, .vDict [(.ks "content", .vDict [(.ks "TEXT", .vStr "Hello")])])]) =
      true := by decide

example :
    has_meaningful_content
      (.vDict [(.ki 1, .vDict [(.ks "content", .vDict [(.ks "TEXT", .vStr "")])]),
               (.ki 2, .vDict [(.ks "content", .vDict [(.ks "TEXT", .vStr "  ")])])]) =
      false := by decide

example : has_meaningful_content .vNone = false := by decide

example : get_reader "Camelot" = .error .valueError := rfl

example : get_reader "PyPDF2" = .ok .pypdf2 := rfl

example : runJob envBase 0 = some (trBase, Outcome.success) := rfl

example : runJob envC10 0 = some (trC10, Outcome.success) := rfl

example : runJob envC6 0 = some (trC6, Outcome.retryScheduled .runtimeError 30) := rfl

/-- Any integer multiple of 1/10000 is a fixed point of rounding to four
decimal places. -/
lemma round4_int_div (m : ℤ) : round4 ((m : ℚ) / 10000) = (m : ℚ) / 10000 := by
  unfold round4
  have h : ((m : ℚ) / 10000) * 10000 = (m : ℚ) := by
    field_simp
  rw [h]
  have h2 : ⌊(m : ℚ) + 1 / 2⌋ = m := by
    rw [add_comm, Int.floor_add_int]
    norm_num
  rw [h2]

/-- Every rate the cost table can yield is an integer number of
ten-thousandths. -/
lemma cost_rate_denom (t : String) :
    ∃ m : ℤ, ((cost_per_page.lookup t).getD (1 / 1000)) = (m : ℚ) / 10000 := by
  unfold cost_per_page
  simp only [List.lookup]
  repeat' split
  · exact ⟨0, by norm_num [Option.getD]⟩
  · exact ⟨0, by norm_num [Option.getD]⟩
  · exact ⟨0, by norm_num [Option.getD]⟩
  · exact ⟨0, by norm_num [Option.getD]⟩
  · exact ⟨15, by norm_num [Option.getD]⟩
  · exact ⟨0, by norm_num [Option.getD]⟩
  · exact ⟨50, by norm_num [Option.getD]⟩
  · exact ⟨100, by norm_num [Option.getD]⟩
  · exact ⟨150, by norm_num [Option.getD]⟩
  · exact ⟨10, by norm_num [Option.getD]⟩

/-- Rounding to four decimals is the identity on every cost the code
computes, so the cost is exactly rate times page count. -/
lemma cost_eq_rate_mul (t : String) (n : Nat) :
    calculate_extraction_cost t n = ((cost_per_page.lookup t).getD (1 / 1000)) * n := by
  obtain ⟨m, hm⟩ := cost_rate_denom t
  unfold calculate_extraction_cost
  rw [hm]
  have h2 : ((m : ℚ) / 10000) * (n : ℚ) = ((m * n : ℤ) : ℚ) / 10000 := by
    push_cast
    ring
  rw [h2, round4_int_div]

/-- Dict lookup only returns stored entries. -/
lemma dictGet_mem : ∀ {l : List (PyKey × PyVal)} {k : PyKey} {v : PyVal},
    dictGet l k = some v → (k, v) ∈ l := by
  intro l
  induction l with
  | nil => intro k v h; simp [dictGet] at h
  | cons hd tl ih =>
    intro k v h
    obtain ⟨k2, v2⟩ := hd
    unfold dictGet at h
    split at h
    · rename_i heq
      cases h
      subst heq
      exact List.mem_cons_self _ _
    · exact List.mem_cons_of_mem _ (ih h)

/-- Python `or` on a string operand keeps the string iff it is non-empty. -/
lemma pyOr_str (s : String) (x : PyVal) :
    pyOr (.vStr s) x = if s.isEmpty then x else .vStr s := by
  by_cases h : s.isEmpty <;> simp [pyOr, PyVal.truthy, h]

/-- In a content dict of string values, each tag's looked-up value is the
string getStrKind reports, or None with getStrKind empty. -/
lemma wf_got (cl : List (PyKey × PyVal))
    (h : (cl.all fun kv => match kv.2 with | PyVal.vStr _ => true | _ => false) = true)
    (k : String) :
    (dictGet cl (.ks k)).getD .vNone = PyVal.vStr (getStrKind cl k) ∨
    ((dictGet cl (.ks k)).getD .vNone = PyVal.vNone ∧ getStrKind cl k = "") := by
  unfold getStrKind
  match hg : dictGet cl (PyKey.ks k) with
  | Option.none => right; simp
  | some v =>
    have hm := dictGet_mem hg
    have h2 := List.all_eq_true.mp h _ hm
    left
    cases v with
    | vStr s => simp
    | vNone => simp at h2
    | vBool b => simp at h2
    | vInt n => simp at h2
    | vDict l2 => simp at h2

/-- The three-step or-chain over string-or-missing values selects the first
non-empty string. -/
lemma chain3_eq (a b c : PyVal) (sa sb sc : String)
    (ha : a = .vStr sa ∨ (a = .vNone ∧ sa = ""))
    (hb : b = .vStr sb ∨ (b = .vNone ∧ sb = ""))
    (hc : c = .vStr sc ∨ (c = .vNone ∧ sc = "")) :
    pyOr a (pyOr b (pyOr c (.vStr ""))) =
      .vStr (firstNonemptyStr [sa, sb, sc]) := by
  rcases ha with ha | ⟨ha, ha2⟩ <;> rcases hb with hb | ⟨hb, hb2⟩ <;>
    rcases hc with hc | ⟨hc, hc2⟩ <;> subst_vars <;>
    simp only [pyOr_str, firstNonemptyStr, pyOr, PyVal.truthy] <;>
    split_ifs <;> simp_all [String.isEmpty_iff]

/-- On a well-formed page body the validator's per-page evaluation cannot
raise and computes the selected text. -/
lemma wf_pageText (body : PyVal) (h : WFBody body = true) :
    pageText body = .ok (code_selected_text body) := by
  cases body with
  | vNone => simp [WFBody] at h
  | vBool b => simp [WFBody] at h
  | vInt n => simp [WFBody] at h
  | vStr s => simp [WFBody] at h
  | vDict bl =>
    unfold WFBody at h
    cases bl with
    | nil => rfl
    | cons hd tl =>
      have hpy : pyOr (PyVal.vDict (hd :: tl)) (PyVal.vDict []) =
          PyVal.vDict (hd :: tl) := by
        simp [pyOr, PyVal.truthy]
      match hg : dictGet (hd :: tl) (PyKey.ks "content") with
      | Option.none =>
        simp only [pageText, code_selected_text, hpy, hg]
        rfl
      | some (PyVal.vDict cl) =>
        simp only [hg] at h
        simp only [pageText, code_selected_text, hpy, hg, Option.getD_some]
        rw [chain3_eq _ _ _ _ _ _ (wf_got cl h "COMBINED") (wf_got cl h "TEXT")
          (wf_got cl h "LATEX")]
      | some PyVal.vNone => simp only [hg] at h; simp at h
      | some (PyVal.vBool b) => simp only [hg] at h; simp at h
      | some (PyVal.vInt n) => simp only [hg] at h; simp at h
      | some (PyVal.vStr s) => simp only [hg] at h; simp at h

/-- On a well-formed page list the scan never raises and reports whether
some page's selected text is non-empty. -/
lemma scanPages_wf (l : List (PyKey × PyVal))
    (h : (l.all fun pr => WFBody pr.2) = true) :
    scanPages l = .ok (l.any fun pr => !(code_selected_text pr.2).isEmpty) := by
  induction l with
  | nil => rfl
  | cons hd tl ih =>
    simp only [List.all_cons, Bool.and_eq_true] at h
    obtain ⟨k, body⟩ := hd
    unfold scanPages
    rw [wf_pageText body h.1]
    have hemp : ("" : String).isEmpty = true := rfl
    by_cases hs : (code_selected_text body).isEmpty
    · have hs2 : code_selected_text body = "" := (String.isEmpty_iff _).mp hs
      simp [hs2, ih h.2, hemp]
    · have hs2 : code_selected_text body ≠ "" := by
        intro hx
        rw [hx] at hs
        exact hs hemp
      simp [hs2, hs]

/-- The wrapped validator answers true exactly when the unwrapped
computation does. -/
lemma hmc_eq_true_iff (v : PyVal) :
    has_meaningful_content v = true ↔ hasMeaningfulContentE v = .ok true := by
  unfold has_meaningful_content
  cases h : hasMeaningfulContentE v <;> simp

/-- The unwrapped validator answers true exactly on dicts whose page scan
answers true. -/
lemma hE_ok_true_iff (v : PyVal) :
    hasMeaningfulContentE v = .ok true ↔
      ∃ l, v = PyVal.vDict l ∧ scanPages l = .ok true := by
  unfold hasMeaningfulContentE
  cases v with
  | vNone => simp [PyVal.truthy]
  | vBool b => cases b <;> simp [PyVal.truthy]
  | vInt n =>
    by_cases hn : n = 0
    · simp [PyVal.truthy, hn]
    · simp [PyVal.truthy, hn]
  | vStr s =>
    by_cases hs : s.isEmpty <;> simp [PyVal.truthy, hs]
  | vDict l =>
    cases l with
    | nil => simp [PyVal.truthy, scanPages]
    | cons hd tl => simp [PyVal.truthy]

/-- The scan answers true exactly when some page yields non-blank text and
every earlier page evaluates cleanly to blank text. -/
lemma scanPages_ok_true_iff (l : List (PyKey × PyVal)) :
    scanPages l = .ok true ↔
      ∃ pre pr rest, l = pre ++ pr :: rest ∧
        (∀ q ∈ pre, pageText q.2 = .ok "") ∧
        ∃ t, pageText pr.2 = .ok t ∧ t ≠ "" := by
  induction l with
  | nil =>
    constructor
    · intro h
      simp [scanPages] at h
    · rintro ⟨pre, pr, rest, heq, -, -⟩
      exact absurd heq (by simp)
  | cons hd tl ih =>
    obtain ⟨k, body⟩ := hd
    unfold scanPages
    match hp : pageText body with
    | .error e =>
      constructor
      · intro h
        exact absurd h (by simp)
      · rintro ⟨pre, pr, rest, heq, hpre, t, hpt, ht⟩
        cases pre with
        | nil =>
          rw [List.nil_append] at heq
          injection heq with h1 h2
          rw [← h1] at hpt
          rw [hp] at hpt
          exact absurd hpt (by simp)
        | cons p pre2 =>
          rw [List.cons_append] at heq
          injection heq with h1 h2
          have hq := hpre p (List.mem_cons_self _ _)
          rw [← h1] at hq
          rw [hp] at hq
          exact absurd hq (by simp)
    | .ok t0 =>
      by_cases ht0 : t0 = ""
      · subst ht0
        simp only [ne_eq, not_true_eq_false, if_false]
        rw [ih]
        constructor
        · rintro ⟨pre, pr, rest, heq, hpre, t, hpt, ht⟩
          refine ⟨(k, body) :: pre, pr, rest, by rw [heq, List.cons_append], ?_, t, hpt, ht⟩
          intro q hq
          rcases List.mem_cons.mp hq with hq | hq
          · rw [hq]
            exact hp
          · exact hpre q hq
        · rintro ⟨pre, pr, rest, heq, hpre, t, hpt, ht⟩
          cases pre with
          | nil =>
            rw [List.nil_append] at heq
            injection heq with h1 h2
            rw [← h1] at hpt
            rw [hp] at hpt
            injection hpt with h3
            exact absurd h3.symm ht
          | cons p pre2 =>
            rw [List.cons_append] at heq
            injection heq with h1 h2
            exact ⟨pre2, pr, rest, h2, fun q hq => hpre q (List.mem_cons_of_mem _ hq),
              t, hpt, ht⟩
      · simp only [ne_eq, ht0, not_false_eq_true, if_true]
        constructor
        · intro _
          exact ⟨[], (k, body), tl, rfl, by simp, t0, hp, ht0⟩
        · intro _
          trivial

/-- Field-by-field description of the failure handler: FAILURE is appended
to the committed statuses, cost zero is committed, a breaker failure is
recorded, the read and poll effects are untouched, no pages are committed
beyond those already in the trace, and the outcome is classified by
is_infrastructure_error and the retry budget. -/
lemma handleFailure_spec (env : Env) (r : Nat) (tr : Trace) (e : PyExc) :
    (handleFailure env r tr e).1.statusUpdates = tr.statusUpdates ++ [ExtractionStatus.FAILURE] ∧
    (handleFailure env r tr e).1.readCalled = tr.readCalled ∧
    (handleFailure env r tr e).1.pollCalls = tr.pollCalls ∧
    (handleFailure env r tr e).1.breakerFailureRecorded = true ∧
    (handleFailure env r tr e).1.costRecorded = some 0 ∧
    (handleFailure env r tr e).1.markedFailed = true ∧
    (handleFailure env r tr e).1.persistedPages = tr.persistedPages ∧
    (handleFailure env r tr e).2 =
      (if is_infrastructure_error e then Outcome.infraRaise e
       else if r < (get_retry_config env.extractorRetryTable env.defaultRetryConfig
           env.extractor_type).max_retries then
         Outcome.retryScheduled e (get_retry_config env.extractorRetryTable
           env.defaultRetryConfig env.extractor_type).countdown
       else Outcome.retriesExhausted e) := by
  unfold handleFailure
  split <;> simp_all

/-- The failure handler never reports a successful outcome. -/
lemma handleFailure_ne_success (env : Env) (r : Nat) (tr : Trace) (e : PyExc) :
    (handleFailure env r tr e).2 ≠ Outcome.success := by
  have h := (handleFailure_spec env r tr e).2.2.2.2.2.2.2
  rw [h]
  split
  · simp
  · split <;> simp

/-- finishJob either commits SUCCESS together with the validated pages, or
delegates to the failure handler on the incoming trace. -/
lemma finishJob_cases (env : Env) (r : Nat) (tr tr2 : Trace) (pc : PyVal) (out : Outcome)
    (h : finishJob env r tr pc = (tr2, out)) :
    (out = Outcome.success ∧ ∃ entries, pc = PyVal.vDict entries ∧
       has_meaningful_content pc = true ∧
       persistPages entries = .ok tr2.persistedPages ∧
       tr2.statusUpdates = tr.statusUpdates ++ [ExtractionStatus.SUCCESS] ∧
       tr2.costRecorded = some (calculate_extraction_cost env.extractor_type entries.length) ∧
       tr2.breakerReset = true ∧ tr2.markedComplete = true) ∨
    (∃ e, (tr2, out) = handleFailure env r tr e) := by
  unfold finishJob at h
  split at h
  · exact Or.inr ⟨_, h.symm⟩
  · split at h
    · split at h
      · exact Or.inr ⟨_, h.symm⟩
      · left
        cases h
        exact ⟨rfl, _, rfl, by simp_all, by assumption, rfl, rfl, rfl, rfl⟩
    · exact Or.inr ⟨_, h.symm⟩

/-- Every completed invocation either fails straight from the breaker check
with nothing yet committed, or first commits PROCESSING and then ends in
the SUCCESS commit or in the failure handler. -/
lemma runJob_shape (env : Env) (retries : Nat) (tr : Trace) (out : Outcome)
    (h : runJob env retries = some (tr, out)) :
    (check_circuit_breaker env.breakerCount env.breakerThreshold = true ∧
       (tr, out) = handleFailure env retries Trace.empty PyExc.runtimeError) ∨
    (check_circuit_breaker env.breakerCount env.breakerThreshold = false ∧
       ((out = Outcome.success ∧
           tr.statusUpdates = [ExtractionStatus.PROCESSING, ExtractionStatus.SUCCESS] ∧
           ∃ entries, has_meaningful_content (PyVal.vDict entries) = true ∧
             persistPages entries = .ok tr.persistedPages ∧
             tr.costRecorded = some (calculate_extraction_cost env.extractor_type entries.length) ∧
             tr.breakerReset = true ∧ tr.markedComplete = true) ∨
        ∃ tr0 e, tr0.statusUpdates = [ExtractionStatus.PROCESSING] ∧
          (tr, out) = handleFailure env retries tr0 e)) := by
  unfold runJob at h
  split at h
  · exact Or.inl ⟨by assumption, (Option.some.inj h).symm⟩
  · rename_i hcb
    right
    refine ⟨by simpa using hcb, ?_⟩
    split at h
    · exact Or.inr ⟨_, _, rfl, (Option.some.inj h).symm⟩
    · split at h
      · exact Or.inr ⟨_, _, rfl, (Option.some.inj h).symm⟩
      · split at h
        · exact Or.inr ⟨_, _, rfl, (Option.some.inj h).symm⟩
        · split at h
          · exact Or.inr ⟨_, _, rfl, (Option.some.inj h).symm⟩
          · split at h
            · rcases finishJob_cases _ _ _ _ _ _ (Option.some.inj h) with
                ⟨ho, entries, hpc, hmean, hpersist, hst, hcost, hbr, hmc⟩ | ⟨e, he⟩
              · exact absurd hpc (by simp)
              · exact Or.inr ⟨_, _, rfl, he⟩
            · split at h
              · rcases finishJob_cases _ _ _ _ _ _ (Option.some.inj h) with
                  ⟨ho, entries, hpc, hmean, hpersist, hst, hcost, hbr, hmc⟩ | ⟨e, he⟩
                · injection hpc with h2
                  subst h2
                  exact Or.inl ⟨ho, by rw [hst]; rfl, _, hmean, hpersist, hcost, hbr, hmc⟩
                · exact Or.inr ⟨_, _, rfl, he⟩
              · split at h
                · simp at h
                · split at h
                  · exact Or.inr ⟨_, _, rfl, (Option.some.inj h).symm⟩
                  · split at h
                    · exact Or.inr ⟨_, _, rfl, (Option.some.inj h).symm⟩
                    · rcases finishJob_cases _ _ _ _ _ _ (Option.some.inj h) with
                        ⟨ho, entries, hpc, hmean, hpersist, hst, hcost, hbr, hmc⟩ | ⟨e, he⟩
                      · subst hpc
                        exact Or.inl ⟨ho, by rw [hst]; rfl, _, hmean, hpersist, hcost, hbr, hmc⟩
                      · exact Or.inr ⟨_, _, rfl, he⟩

/-- Outcome classification for any invocation ending in the failure
handler: infrastructure errors are re-raised, other errors are retried with
the configured countdown while the budget lasts and re-raised once it is
exhausted, and the job's last committed status is FAILURE. -/
lemma handleFailure_classified (env : Env) (r : Nat) (tr0 tr : Trace) (e : PyExc)
    (out : Outcome) (hpair : (tr, out) = handleFailure env r tr0 e) :
    (∀ e2, out = Outcome.infraRaise e2 →
       is_infrastructure_error e2 = true ∧
       tr.statusUpdates.getLast? = some ExtractionStatus.FAILURE) ∧
    (∀ e2 c, out = Outcome.retryScheduled e2 c →
       is_infrastructure_error e2 = false ∧
       c = (get_retry_config env.extractorRetryTable env.defaultRetryConfig
         env.extractor_type).countdown ∧
       r < (get_retry_config env.extractorRetryTable env.defaultRetryConfig
         env.extractor_type).max_retries ∧
       tr.statusUpdates.getLast? = some ExtractionStatus.FAILURE) ∧
    (∀ e2, out = Outcome.retriesExhausted e2 →
       is_infrastructure_error e2 = false ∧
       (get_retry_config env.extractorRetryTable env.defaultRetryConfig
         env.extractor_type).max_retries ≤ r ∧
       tr.statusUpdates.getLast? = some ExtractionStatus.FAILURE) := by
  have h1 : tr = (handleFailure env r tr0 e).1 := by rw [← hpair]
  have h2 : out = (handleFailure env r tr0 e).2 := by rw [← hpair]
  have hspec := handleFailure_spec env r tr0 e
  have hlast : tr.statusUpdates.getLast? = some ExtractionStatus.FAILURE := by
    rw [h1, hspec.1]
    exact List.getLast?_concat _
  rw [hspec.2.2.2.2.2.2.2] at h2
  by_cases hinf : is_infrastructure_error e = true
  · rw [if_pos hinf] at h2
    refine ⟨?_, ?_, ?_⟩
    · intro e2 heq
      rw [h2] at heq
      injection heq with h3
      subst h3
      exact ⟨hinf, hlast⟩
    · intro e2 c heq
      rw [h2] at heq
      exact absurd heq (by simp)
    · intro e2 heq
      rw [h2] at heq
      exact absurd heq (by simp)
  · rw [if_neg hinf] at h2
    have hinf2 : is_infrastructure_error e = false := by
      simpa using hinf
    by_cases hr : r < (get_retry_config env.extractorRetryTable env.defaultRetryConfig
        env.extractor_type).max_retries
    · rw [if_pos hr] at h2
      refine ⟨?_, ?_, ?_⟩
      · intro e2 heq
        rw [h2] at heq
        exact absurd heq (by simp)
      · intro e2 c heq
        rw [h2] at heq
        injection heq with h3 h4
        subst h3
        subst h4
        exact ⟨hinf2, rfl, hr, hlast⟩
      · intro e2 heq
        rw [h2] at heq
        exact absurd heq (by simp)
    · rw [if_neg hr] at h2
      refine ⟨?_, ?_, ?_⟩
      · intro e2 heq
        rw [h2] at heq
        exact absurd heq (by simp)
      · intro e2 c heq
        rw [h2] at heq
        exact absurd heq (by simp)
      · intro e2 heq
        rw [h2] at heq
        injection heq with h3
        subst h3
        exact ⟨hinf2, Nat.le_of_not_lt hr, hlast⟩

/-- Every row the persistence loop emits carries the default empty metadata
column and exactly the content sub-map of the page it came from. -/
lemma persistPages_mem : ∀ {entries : List (PyKey × PyVal)} {stored : List StoredPage},
    persistPages entries = .ok stored → ∀ sp ∈ stored,
      sp.metadata_ = PyVal.vDict [] ∧
      ∃ body bl, (sp.page_number, body) ∈ entries ∧ body = PyVal.vDict bl ∧
        dictGet bl (.ks "content") = some sp.content := by
  intro entries
  induction entries with
  | nil =>
    intro stored h sp hsp
    unfold persistPages at h
    injection h with h1
    subst h1
    simp at hsp
  | cons hd tl ih =>
    intro stored h sp hsp
    obtain ⟨k, body⟩ := hd
    unfold persistPages at h
    split at h
    · rename_i bl
      split at h
      · rename_i c hc
        match hrec : persistPages tl with
        | .error e =>
          rw [hrec] at h
          simp [Except.map] at h
        | .ok r =>
          rw [hrec] at h
          simp only [Except.map] at h
          injection h with h1
          subst h1
          rcases List.mem_cons.mp hsp with hsp | hsp
          · subst hsp
            exact ⟨rfl, PyVal.vDict bl, bl, List.mem_cons_self _ _, rfl, hc⟩
          · rcases ih hrec sp hsp with ⟨hm, body2, bl2, hmem, hb, hd2⟩
            exact ⟨hm, body2, bl2, List.mem_cons_of_mem _ hmem, hb, hd2⟩
      · exact absurd h (by simp)
    · exact absurd h (by simp)

/-- Counterexample to claim C1: with the circuit breaker open (counter 5,
threshold 5), the invocation does fail without invoking the extractor, but
contrary to the claim a retry IS scheduled (after the configured 30-second
countdown), a breaker failure is recorded, and the job is set to FAILURE. -/
theorem C1_counterexample :
    ∃ tr, runJob envC1 0 = some (tr, Outcome.retryScheduled PyExc.runtimeError 30) ∧
      tr.readCalled = false ∧ tr.breakerFailureRecorded = true ∧
      tr.statusUpdates = [ExtractionStatus.FAILURE] :=
  ⟨_, rfl, rfl, rfl, rfl⟩

/-- Claim C1 as amended: whenever the circuit breaker is open for the job's
extractor identifier, the invocation fails before the extractor is invoked
or polled and before anything is persisted, but the breaker error is
handled like any retryable error: the job is committed straight to FAILURE,
a further breaker failure is recorded, and a retry is scheduled with the
retry policy's countdown while attempts remain (the attempt counts against
the policy's maximum). -/
theorem C1_circuit_open_behaviour (env : Env) (retries : Nat)
    (h : check_circuit_breaker env.breakerCount env.breakerThreshold = true) :
    ∃ tr out, runJob env retries = some (tr, out) ∧
      tr.readCalled = false ∧ tr.pollCalls = 0 ∧ tr.persistedPages = [] ∧
      tr.statusUpdates = [ExtractionStatus.FAILURE] ∧
      tr.breakerFailureRecorded = true ∧
      out = (if retries < (get_retry_config env.extractorRetryTable
          env.defaultRetryConfig env.extractor_type).max_retries then
        Outcome.retryScheduled PyExc.runtimeError (get_retry_config
          env.extractorRetryTable env.defaultRetryConfig env.extractor_type).countdown
      else Outcome.retriesExhausted PyExc.runtimeError) := by
  have hrun : runJob env retries =
      some (handleFailure env retries Trace.empty PyExc.runtimeError) := by
    unfold runJob
    rw [if_pos h]
  have hspec := handleFailure_spec env retries Trace.empty PyExc.runtimeError
  refine ⟨_, _, by rw [hrun], hspec.2.1, hspec.2.2.1, hspec.2.2.2.2.2.2.1, ?_,
    hspec.2.2.2.1, ?_⟩
  · rw [hspec.1]
    rfl
  · exact hspec.2.2.2.2.2.2.2

/-- Witness for C1_circuit_open_behaviour at the concrete open-breaker
environment envC1. -/
theorem C1_witness :
    ∃ tr out, runJob envC1 0 = some (tr, out) ∧ tr.readCalled = false := by
  obtain ⟨tr, out, h1, h2, -⟩ := C1_circuit_open_behaviour envC1 0 rfl
  exact ⟨tr, out, h1, h2⟩

/-- Claim C2 evaluated on the code: for a webhook-capable extractor the
executor does not end the pass pending external delivery; it sets
page_contents to None, the content check then necessarily fails, and the
job is committed to the terminal FAILURE status with a retry scheduled —
contradicting the claim (and the source's own comment that the webhook
handler would finish the update later). -/
theorem C2_webhook_invocation_fails :
    ∃ tr, runJob envC2 0 = some (tr, Outcome.retryScheduled PyExc.runtimeError 30) ∧
      tr.statusUpdates = [ExtractionStatus.PROCESSING, ExtractionStatus.FAILURE] ∧
      tr.markedFailed = true :=
  ⟨_, rfl, rfl, rfl⟩

/-- Counterexample to claim C3: with the circuit breaker open the recorded
status sequence is NOT_STARTED, FAILURE — PROCESSING is skipped, so the
sequence is a prefix of neither admitted chain. -/
theorem C3_counterexample :
    ∃ tr out, runJob envC3 0 = some (tr, out) ∧
      ExtractionStatus.NOT_STARTED :: tr.statusUpdates =
        [ExtractionStatus.NOT_STARTED, ExtractionStatus.FAILURE] ∧
      ExtractionStatus.NOT_STARTED :: tr.statusUpdates ∉ claimStatusSeqs := by
  refine ⟨_, _, rfl, rfl, by decide⟩

/-- Claim C3 as amended: when the circuit-breaker check passes, the status
sequence recorded by an invocation (starting from the initial NOT_STARTED)
is a prefix of NOT_STARTED, PROCESSING, SUCCESS or of NOT_STARTED,
PROCESSING, FAILURE and no transition is reversed; when the breaker is
open, the job instead jumps straight from NOT_STARTED to FAILURE, skipping
PROCESSING. -/
theorem C3_status_sequences (env : Env) (retries : Nat) (tr : Trace) (out : Outcome)
    (h : runJob env retries = some (tr, out)) :
    (check_circuit_breaker env.breakerCount env.breakerThreshold = false →
       ExtractionStatus.NOT_STARTED :: tr.statusUpdates ∈ claimStatusSeqs) ∧
    (check_circuit_breaker env.breakerCount env.breakerThreshold = true →
       ExtractionStatus.NOT_STARTED :: tr.statusUpdates =
         [ExtractionStatus.NOT_STARTED, ExtractionStatus.FAILURE]) := by
  rcases runJob_shape env retries tr out h with ⟨hcb, hpair⟩ | ⟨hcb, hrest⟩
  · constructor
    · intro h2
      rw [hcb] at h2
      exact absurd h2 (by simp)
    · intro _
      have h1 : tr = (handleFailure env retries Trace.empty PyExc.runtimeError).1 := by
        rw [← hpair]
      rw [h1, (handleFailure_spec env retries Trace.empty PyExc.runtimeError).1]
      rfl
  · constructor
    · intro _
      rcases hrest with ⟨-, hst, -⟩ | ⟨tr0, e, hst0, hpair⟩
      · rw [hst]
        decide
      · have h1 : tr = (handleFailure env retries tr0 e).1 := by
          rw [← hpair]
        rw [h1, (handleFailure_spec env retries tr0 e).1, hst0]
        decide
    · intro h2
      rw [hcb] at h2
      exact absurd h2 (by simp)

/-- Witness for C3_status_sequences at the successful envBase invocation. -/
theorem C3_witness :
    ExtractionStatus.NOT_STARTED :: trBase.statusUpdates ∈ claimStatusSeqs :=
  (C3_status_sequences envBase 0 trBase Outcome.success rfl).1 rfl

/-- Counterexample to claim C4: a page whose only content value is a
non-blank TABLE entry passes the spec's validator but fails the code's,
which consults only COMBINED, TEXT and LATEX. -/
theorem C4_counterexample :
    spec_isMeaningful tableOnlyPages = true ∧
    has_meaningful_content tableOnlyPages = false := by
  constructor <;> decide

/-- Claim C4 as amended: on well-formed page maps the validator returns
true exactly when some page's selected text is non-blank, where the
selected text is the first non-empty string among the COMBINED, TEXT and
LATEX content entries (in that order), stripped of whitespace; TABLE and
MARKDOWN entries are never consulted, and a whitespace-only earlier entry
masks later ones. The check runs once per attempt, before persistence. -/
theorem C4_validator_kinds (v : PyVal) (h : WFPages v = true) :
    has_meaningful_content v = amended_meaningful v := by
  cases v with
  | vNone => simp [WFPages] at h
  | vBool b => simp [WFPages] at h
  | vInt n => simp [WFPages] at h
  | vStr s => simp [WFPages] at h
  | vDict l =>
    unfold WFPages at h
    cases l with
    | nil => rfl
    | cons hd tl =>
      unfold has_meaningful_content hasMeaningfulContentE
      have ht : PyVal.truthy (PyVal.vDict (hd :: tl)) = true := by
        simp [PyVal.truthy]
      rw [ht]
      simp only [Bool.not_true, Bool.false_eq_true, if_false]
      rw [scanPages_wf _ h]
      rfl

/-- Witness for C4_validator_kinds at a concrete well-formed one-page
map. -/
theorem C4_witness :
    has_meaningful_content goodPages = amended_meaningful goodPages :=
  C4_validator_kinds goodPages (by decide)

/-- Claim C5 evaluated on the code: PyPDF2Extractor.read always returns the
boolean True — never the normalized page map its own type annotation
promises — so the executor's dict test fails and the result is obtained
through the polling path (one get_status call and a get_result call), not
from read's return value. -/
theorem C5_pypdf2_read_returns_true :
    (∀ o, (pypdf2_read o).1 = PyVal.vBool true) ∧
    (∃ tr, runJob envC5 0 = some (tr, Outcome.success) ∧ tr.pollCalls = 1) :=
  ⟨fun _ => rfl, _, rfl, rfl⟩

/-- Claim C6: for every completed invocation, an infrastructure-classed
error propagates with no retry scheduled; every other error is re-enqueued
with the per-extractor configured countdown (falling back to the default
entry) while attempts remain, and once the maximum is reached the error is
re-raised with no retry and the job's last committed status stays
FAILURE. -/
theorem C6_failure_classification (env : Env) (retries : Nat) (tr : Trace)
    (out : Outcome) (h : runJob env retries = some (tr, out)) :
    (∀ e, out = Outcome.infraRaise e →
       is_infrastructure_error e = true ∧
       tr.statusUpdates.getLast? = some ExtractionStatus.FAILURE) ∧
    (∀ e c, out = Outcome.retryScheduled e c →
       is_infrastructure_error e = false ∧
       c = (get_retry_config env.extractorRetryTable env.defaultRetryConfig
         env.extractor_type).countdown ∧
       retries < (get_retry_config env.extractorRetryTable env.defaultRetryConfig
         env.extractor_type).max_retries ∧
       tr.statusUpdates.getLast? = some ExtractionStatus.FAILURE) ∧
    (∀ e, out = Outcome.retriesExhausted e →
       is_infrastructure_error e = false ∧
       (get_retry_config env.extractorRetryTable env.defaultRetryConfig
         env.extractor_type).max_retries ≤ retries ∧
       tr.statusUpdates.getLast? = some ExtractionStatus.FAILURE) := by
  rcases runJob_shape env retries tr out h with ⟨-, hpair⟩ | ⟨-, hrest⟩
  · exact handleFailure_classified env retries Trace.empty tr PyExc.runtimeError out hpair
  · rcases hrest with ⟨ho, -⟩ | ⟨tr0, e, -, hpair⟩
    · subst ho
      refine ⟨?_, ?_, ?_⟩
      · intro e2 heq
        exact absurd heq (by simp)
      · intro e2 c heq
        exact absurd heq (by simp)
      · intro e2 heq
        exact absurd heq (by simp)
    · exact handleFailure_classified env retries tr0 tr e out hpair

/-- Witness for C6_failure_classification: the envC6 invocation, whose
extractor raises a provider error, is retried after the configured
30-second countdown with FAILURE as the last committed status. -/
theorem C6_witness :
    is_infrastructure_error PyExc.runtimeError = false ∧
    (30 : Nat) = (get_retry_config envC6.extractorRetryTable envC6.defaultRetryConfig
      envC6.extractor_type).countdown ∧
    0 < (get_retry_config envC6.extractorRetryTable envC6.defaultRetryConfig
      envC6.extractor_type).max_retries ∧
    trC6.statusUpdates.getLast? = some ExtractionStatus.FAILURE :=
  (C6_failure_classification envC6 0 trC6 (Outcome.retryScheduled PyExc.runtimeError 30)
    rfl).2.1 PyExc.runtimeError 30 rfl

/-- Claim C7: resolution through the registry fails with the unknown-
extractor error (ValueError in the source) exactly on identifiers without a
registered constructor and otherwise returns the constructed instance; the
resolution function is a pure lookup over the identifier, so it changes no
job state. -/
theorem C7_registry_resolution (t : String) :
    (READER_MAP.lookup t = Option.none → get_reader t = .error .valueError) ∧
    (∀ r, READER_MAP.lookup t = some r → get_reader t = .ok r) := by
  constructor
  · intro h
    simp [get_reader, h]
  · intro r h
    simp [get_reader, h]

/-- Witness for C7_registry_resolution: Camelot is an enum value without a
registered constructor and resolves to the error; PyPDF2 resolves to its
constructor. -/
theorem C7_witness :
    get_reader "Camelot" = .error .valueError ∧ get_reader "PyPDF2" = .ok .pypdf2 :=
  ⟨(C7_registry_resolution "Camelot").1 rfl,
   (C7_registry_resolution "PyPDF2").2 .pypdf2 rfl⟩

/-- Claim C8: the computed cost equals the per-page rate for the extractor
times the page count — the rounding to 4 decimal places is exact because
every rate is a whole number of ten-thousandths — an identifier with no
listed rate uses the default rate 0.001, and a one-page result costs
exactly the rate. -/
theorem C8_cost (t : String) (n : Nat) :
    calculate_extraction_cost t n = ((cost_per_page.lookup t).getD (1 / 1000)) * n ∧
    (cost_per_page.lookup t = Option.none →
       calculate_extraction_cost t n = (1 / 1000) * n) ∧
    calculate_extraction_cost t 1 = ((cost_per_page.lookup t).getD (1 / 1000)) := by
  refine ⟨cost_eq_rate_mul t n, ?_, ?_⟩
  · intro h
    rw [cost_eq_rate_mul, h]
    rfl
  · rw [cost_eq_rate_mul]
    simp

/-- Witness for C8_cost: an unlisted identifier is billed at the default
rate. -/
theorem C8_witness :
    calculate_extraction_cost "Mistral" 2 = (1 / 1000) * 2 :=
  (C8_cost "Mistral" 2).2.1 rfl

/-- Counterexample to claim C9: a malformed first page aborts the scan, so
a map whose second page is meaningful is judged not meaningful by the code,
while treating each malformed page as merely not meaningful (the claim's
reading) would accept it. -/
theorem C9_counterexample :
    perPage_isMeaningful poisonedPages = true ∧
    has_meaningful_content poisonedPages = false := by
  constructor <;> decide

/-- Claim C9 as amended: the validator is total — every input yields a
boolean, the try/except turning any internal exception into false — and it
returns true exactly when the input is a dict in which some page yields
non-blank text and every page scanned before it evaluates cleanly to blank
text; in particular a malformed page occurring before the first meaningful
page forces the result false for the whole map. -/
theorem C9_scan_semantics (v : PyVal) :
    has_meaningful_content v = true ↔
      ∃ l pre pr rest, v = PyVal.vDict l ∧ l = pre ++ pr :: rest ∧
        (∀ q ∈ pre, pageText q.2 = .ok "") ∧
        ∃ t, pageText pr.2 = .ok t ∧ t ≠ "" := by
  rw [hmc_eq_true_iff, hE_ok_true_iff]
  constructor
  · rintro ⟨l, rfl, hs⟩
    rcases (scanPages_ok_true_iff l).mp hs with ⟨pre, pr, rest, heq, hpre, t, hpt, ht⟩
    exact ⟨l, pre, pr, rest, rfl, heq, hpre, t, hpt, ht⟩
  · rintro ⟨l, pre, pr, rest, rfl, heq, hpre, t, hpt, ht⟩
    exact ⟨l, rfl, (scanPages_ok_true_iff l).mpr ⟨pre, pr, rest, heq, hpre, t, hpt, ht⟩⟩

/-- Witness for C9_scan_semantics: the one-page map goodPages decomposes
with an empty clean prefix and its page yielding the non-blank text
hello. -/
theorem C9_witness : has_meaningful_content goodPages = true :=
  (C9_scan_semantics goodPages).mpr
    ⟨[(.ki 1, .vDict [(.ks "content", .vDict [(.ks "TEXT", .vStr "hello")])])],
     [], (.ki 1, .vDict [(.ks "content", .vDict [(.ks "TEXT", .vStr "hello")])]), [],
     rfl, rfl, by simp, "hello", rfl, by decide⟩

/-- Claim C10: in every successfully persisted job each stored page row
holds exactly the page's content sub-map in its content column while the
metadata column keeps its default empty dict — the extractor-produced
per-page metadata is never persisted. -/
theorem C10_persisted_rows (env : Env) (retries : Nat) (tr : Trace)
    (h : runJob env retries = some (tr, Outcome.success)) :
    ∃ entries, persistPages entries = .ok tr.persistedPages ∧
      has_meaningful_content (PyVal.vDict entries) = true ∧
      ∀ sp ∈ tr.persistedPages, sp.metadata_ = PyVal.vDict [] ∧
        ∃ body bl, (sp.page_number, body) ∈ entries ∧ body = PyVal.vDict bl ∧
          dictGet bl (.ks "content") = some sp.content := by
  rcases runJob_shape env retries tr Outcome.success h with ⟨-, hpair⟩ | ⟨-, hrest⟩
  · exact absurd (congrArg Prod.snd hpair).symm
      (handleFailure_ne_success env retries Trace.empty PyExc.runtimeError)
  · rcases hrest with ⟨-, -, entries, hmean, hpersist, -, -⟩ | ⟨tr0, e, -, hpair⟩
    · exact ⟨entries, hpersist, hmean, fun sp hsp => persistPages_mem hpersist sp hsp⟩
    · exact absurd (congrArg Prod.snd hpair).symm
        (handleFailure_ne_success env retries tr0 e)

/-- Witness for C10_persisted_rows at the envC10 invocation, whose
extractor emits per-page metadata: the stored row keeps the default empty
metadata and carries the content sub-map. -/
theorem C10_witness :
    spC10.metadata_ = PyVal.vDict [] ∧
    ∃ entries, persistPages entries = .ok trC10.persistedPages ∧
      ∃ body bl, (spC10.page_number, body) ∈ entries ∧ body = PyVal.vDict bl ∧
        dictGet bl (.ks "content") = some spC10.content := by
  obtain ⟨entries, hpersist, hmean, hall⟩ := C10_persisted_rows envC10 0 trC10 rfl
  obtain ⟨hm, body, bl, hmem, hb, hc⟩ := hall spC10 (List.mem_singleton_self _)
  exact ⟨hm, entries, hpersist, body, bl, hmem, hb, hc⟩

end PDFX
